import Mathlib

/-!
Verification of the datanomy Parquet-inspection tool.

Shallow embedding of the metadata aggregation and byte-accounting engine of
the repository: the `RowGroup` helpers and `S3ParquetReader` offset
arithmetic of `src/datanomy/reader/s3_parquet.py`, the rendering logic of
`src/datanomy/tui.py` (structure, statistics and metadata tabs, byte-count
formatting), and the exit-code dispatch of `src/datanomy/cli.py`.

Parquet metadata is modelled as immutable data: a file is a list of row
groups, each a list of column chunks carrying the size fields, codec name,
page offset, index-presence flags and optional statistics that the Python
code reads through the pyarrow accessors.  Machine integers are modelled as
`Int` (Python integers are unbounded); the two-decimal percentage and ratio
arithmetic is modelled over `Rat`, with Python's `:.2f` formatting rendered
as exact half-even rounding of the rational quotient (exact for the byte
counts in scope, which are far below 2^53).
-/

namespace Datanomy

/-- Statistics carried by one column chunk, as exposed by the pyarrow
`statistics` accessor: a value count plus min/max, null count and distinct
count, each gated by its own presence flag (`has_min_max`,
`has_null_count`, `has_distinct_count`). -/
structure Statistics where
  num_values : Int
  has_min_max : Bool
  statMin : Int
  statMax : Int
  has_null_count : Bool
  null_count : Int
  has_distinct_count : Bool
  distinct_count : Int
deriving Repr, DecidableEq, Inhabited

/-- One column chunk of a row group, with the metadata fields the Python
code reads: schema path, physical type, codec name, compressed and
uncompressed byte sizes, data-page offset, page-index presence flags, and
the `is_stats_set` flag guarding the `statistics` accessor. -/
structure ColumnChunk where
  path_in_schema : String
  physical_type : String
  compression : String
  total_compressed_size : Int
  total_uncompressed_size : Int
  data_page_offset : Int
  has_column_index : Bool
  has_offset_index : Bool
  is_stats_set : Bool
  statistics : Statistics
deriving Repr, DecidableEq, Inhabited

/-- Row-group metadata: the ordered column chunks plus the `num_rows` and
`total_byte_size` fields of the footer's row-group record. -/
structure RowGroupMeta where
  columns : List ColumnChunk
  num_rows : Int
  total_byte_size : Int
deriving Repr, DecidableEq, Inhabited

/-- `num_columns` accessor of row-group metadata: the number of column
chunks. -/
def RowGroupMeta.num_columns (rg : RowGroupMeta) : Nat :=
  rg.columns.length

/-- `column(j)` accessor of row-group metadata (`RowGroup.column` in
`s3_parquet.py`): the j-th column chunk. -/
def RowGroupMeta.column (rg : RowGroupMeta) (j : Nat) : ColumnChunk :=
  rg.columns.getD j default

/-- `RowGroupSize` named tuple of `s3_parquet.py`: compressed and
uncompressed byte totals of one row group. -/
structure RowGroupSize where
  compressed : Int
  uncompressed : Int
deriving Repr, DecidableEq, Inhabited

/-- `RowGroup.has_compression` (`s3_parquet.py` lines 68-80): true iff some
column chunk's codec differs from the `"UNCOMPRESSED"` sentinel, scanning
columns `0 ..= num_columns - 1`. -/
def has_compression (rg : RowGroupMeta) : Bool :=
  (List.range rg.num_columns).any fun j => (rg.column j).compression != "UNCOMPRESSED"

/-- `RowGroup.total_sizes` (`s3_parquet.py` lines 82-97): sums
`total_compressed_size` and `total_uncompressed_size` of `column(j)` over
`j` in `range(num_columns)`. -/
def total_sizes (rg : RowGroupMeta) : RowGroupSize :=
  { compressed :=
      ((List.range rg.num_columns).map fun j => (rg.column j).total_compressed_size).sum
    uncompressed :=
      ((List.range rg.num_columns).map fun j => (rg.column j).total_uncompressed_size).sum }

/-- The reader state after a successful open: the parsed footer's row
groups and file-level fields, plus the byte length of the fetched file
content (`self._file_size`).  `metaNumColumns` and `metaNumRows` model the
file-level `metadata.num_columns` / `metadata.num_rows` accessors. -/
structure ReaderState where
  rowGroups : List RowGroupMeta
  fileContentSize : Int
  serialized_size : Int
  metaNumRows : Int
  metaNumColumns : Nat
deriving Repr, DecidableEq, Inhabited

/-- `S3ParquetReader.num_row_groups`. -/
def ReaderState.num_row_groups (r : ReaderState) : Nat :=
  r.rowGroups.length

/-- `S3ParquetReader.file_size`: length of the retrieved byte content. -/
def ReaderState.file_size (r : ReaderState) : Int :=
  r.fileContentSize

/-- `S3ParquetReader.metadata_size`: `metadata.serialized_size`. -/
def ReaderState.metadata_size (r : ReaderState) : Int :=
  r.serialized_size

/-- `S3ParquetReader.get_row_group_info(index)`. -/
def ReaderState.get_row_group_info (r : ReaderState) (index : Nat) : RowGroupMeta :=
  r.rowGroups.getD index default

/-- `S3ParquetReader.page_index_size` (`s3_parquet.py` lines 248-270):
0 for a file with zero row groups; otherwise the gap between the end of
the last column chunk's data (`data_page_offset + total_compressed_size`
of the last column of the last row group) and the start of the footer
(`file_size - metadata_size - 8`). -/
def page_index_size (r : ReaderState) : Int :=
  if r.num_row_groups = 0 then 0
  else
    let last_rg := r.get_row_group_info (r.num_row_groups - 1)
    let last_col := last_rg.column (last_rg.num_columns - 1)
    let last_data_offset := last_col.data_page_offset + last_col.total_compressed_size
    let footer_start := r.file_size - r.metadata_size - 8
    footer_start - last_data_offset

/-- Round `x / d` (with `0 < d`) to the nearest integer, ties to even:
the rounding Python's `:.2f` float formatting applies to the exactly
representable quotients produced by dividing byte counts by powers of
1024. -/
def roundHalfEven (x d : Int) : Int :=
  let q := x / d
  let r := x % d
  if 2 * r < d then q
  else if d < 2 * r then q + 1
  else if q % 2 = 0 then q else q + 1

/-- Left-pad a two-digit fractional part with a zero, as `:.2f` does. -/
def padTwo (k : Int) : String :=
  if k < 10 then "0" ++ toString k else toString k

/-- Python's `f"\x7bn / d:.2f\x7d"` for a positive byte count `n` and a
power-of-1024 divisor `d`: the quotient scaled by 100, rounded half to
even, printed with exactly two decimal places. -/
def twoDecimals (n d : Int) : String :=
  let scaled := roundHalfEven (n * 100) d
  toString (scaled / 100) ++ "." ++ padTwo (scaled % 100)

/-- Insert a comma after every three digits of a reversed digit list. -/
def groupThousandsAux : List Char → List Char
  | a :: b :: c :: d :: rest => a :: b :: c :: ',' :: groupThousandsAux (d :: rest)
  | l => l

/-- Python's grouped-thousands format `f"\x7bn:,\x7d"` for `n ≥ 0`. -/
def groupThousands (n : Int) : String :=
  String.mk (groupThousandsAux (toString n).data.reverse).reverse

/-- `StructureTab._format_size` (`tui.py` lines 34-54), also duplicated on
the schema and metadata tabs: bucket at 1024-byte thresholds into
bytes / KB / MB / GB with a two-decimal scaled value, appending the exact
grouped-thousands byte count from the KB bucket upward. -/
def format_size (size_bytes : Int) : String :=
  if size_bytes < 1024 then
    toString size_bytes ++ " bytes"
  else if size_bytes < 1024 * 1024 then
    twoDecimals size_bytes 1024 ++ " KB (" ++ groupThousands size_bytes ++ " bytes)"
  else if size_bytes < 1024 * 1024 * 1024 then
    twoDecimals size_bytes (1024 * 1024) ++ " MB (" ++ groupThousands size_bytes ++ " bytes)"
  else
    twoDecimals size_bytes (1024 * 1024 * 1024) ++ " GB (" ++ groupThousands size_bytes ++ " bytes)"

/-- The compression-percentage formula used at every ratio call site of
`tui.py`: `(1 - compressed / uncompressed) * 100`, over the rationals. -/
def compressionPct (compressed uncompressed : Int) : Rat :=
  (1 - (compressed : Rat) / (uncompressed : Rat)) * 100

/-- The size lines of one row-group panel of the structure tab: either a
bare size (no compressed column) or the compressed/uncompressed pair with
an optional ratio. -/
inductive RowGroupSizeDisplay
  | plain (size : Int)
  | compressedInfo (compressed uncompressed : Int) (ratio : Option Rat)
deriving Repr, DecidableEq

/-- Ratio component of a row-group panel's size display. -/
def rgSummaryRatio : RowGroupSizeDisplay → Option Rat
  | RowGroupSizeDisplay.plain _ => none
  | RowGroupSizeDisplay.compressedInfo _ _ ro => ro

/-- `StructureTab._render_structure`, row-group summary (`tui.py` lines
88-118): `compressed_sum` sums `total_compressed_size` over the columns,
`uncompressed_sum` is read from `rg.total_byte_size`; when some column is
compressed the panel shows both sizes and, only if `uncompressed_sum > 0`,
the compression percentage; otherwise it shows the single size. -/
def structure_rg_summary (rg : RowGroupMeta) : RowGroupSizeDisplay :=
  let compressed_sum :=
    ((List.range rg.num_columns).map fun j => (rg.column j).total_compressed_size).sum
  let uncompressed_sum := rg.total_byte_size
  if (List.range rg.num_columns).any (fun j => (rg.column j).compression != "UNCOMPRESSED") then
    RowGroupSizeDisplay.compressedInfo compressed_sum uncompressed_sum
      (if uncompressed_sum > 0 then some (compressionPct compressed_sum uncompressed_sum)
       else none)
  else
    RowGroupSizeDisplay.plain compressed_sum

/-- `StructureTab._render_structure`, per-column ratio (`tui.py` lines
142-168): a compressed column shows its ratio only when
`total_uncompressed_size > 0`. -/
def structure_col_ratio (c : ColumnChunk) : Option Rat :=
  if c.compression != "UNCOMPRESSED" then
    if c.total_uncompressed_size > 0 then
      some (compressionPct c.total_compressed_size c.total_uncompressed_size)
    else none
  else none

/-- `SchemaTab._render_schema` size accumulation (`tui.py` lines 420-434):
per logical column position, sizes summed across every row group. -/
def column_totals (r : ReaderState) (col_idx : Nat) : Int × Int :=
  (((List.range r.num_row_groups).map fun i =>
      ((r.get_row_group_info i).column col_idx).total_compressed_size).sum,
   ((List.range r.num_row_groups).map fun i =>
      ((r.get_row_group_info i).column col_idx).total_uncompressed_size).sum)

/-- `SchemaTab._render_schema`, per-column ratio (`tui.py` lines 451-471):
shown only when the aggregated sizes differ and the aggregated
uncompressed size is positive. -/
def schema_col_ratio (r : ReaderState) (col_idx : Nat) : Option Rat :=
  let t := column_totals r col_idx
  if t.1 != t.2 then
    if t.2 > 0 then some (compressionPct t.1 t.2) else none
  else none

/-- `MetadataTab._render_metadata` size totals (`tui.py` lines 857-865):
compressed and uncompressed byte totals over every column chunk of every
row group. -/
def file_total_sizes (r : ReaderState) : Int × Int :=
  (((List.range r.num_row_groups).map fun i =>
      ((List.range (r.get_row_group_info i).num_columns).map fun j =>
        ((r.get_row_group_info i).column j).total_compressed_size).sum).sum,
   ((List.range r.num_row_groups).map fun i =>
      ((List.range (r.get_row_group_info i).num_columns).map fun j =>
        ((r.get_row_group_info i).column j).total_uncompressed_size).sum).sum)

/-- `MetadataTab._render_metadata`, file-level ratio (`tui.py` lines
873-877): computed only when the total uncompressed size is positive. -/
def metadata_ratio (r : ReaderState) : Option Rat :=
  let t := file_total_sizes r
  if t.2 > 0 then some (compressionPct t.1 t.2) else none

/-- `tui.py` line 92: the uncompressed size the structure view shows for a
row group is read from the metadata's `total_byte_size` field. -/
def structure_view_uncompressed (rg : RowGroupMeta) : Int :=
  rg.total_byte_size

/-- Whether any column chunk of any row group has a column index
(`tui.py` lines 219-224). -/
def any_column_index (r : ReaderState) : Bool :=
  (List.range r.num_row_groups).any fun i =>
    (List.range (r.get_row_group_info i).num_columns).any fun j =>
      ((r.get_row_group_info i).column j).has_column_index

/-- Whether any column chunk of any row group has an offset index
(`tui.py` lines 219-226). -/
def any_offset_index (r : ReaderState) : Bool :=
  (List.range r.num_row_groups).any fun i =>
    (List.range (r.get_row_group_info i).num_columns).any fun j =>
      ((r.get_row_group_info i).column j).has_offset_index

/-- A top-level panel of the structure tab. -/
inductive StructSection
  | fileInfo
  | headerPanel
  | rowGroupPanel (i : Nat)
  | pageIndexPanel
  | footerPanel
deriving Repr, DecidableEq

/-- `StructureTab._render_structure`, section assembly (`tui.py` lines
83-85, 206-209, 238-239, 332-340): file info, header, one panel per row
group in order, then the page-index panel list — populated only when
`page_index_size > 0` and, inside that branch, only when a column index or
an offset index is present somewhere — then the footer panel.  (The blank
`Text()` spacer lines between panels are rendering glue and are not
modelled.) -/
def render_structure_sections (r : ReaderState) : List StructSection :=
  let row_group_panels := (List.range r.num_row_groups).map StructSection.rowGroupPanel
  let page_index_panels : List StructSection :=
    if page_index_size r > 0 then
      if any_column_index r || any_offset_index r then [StructSection.pageIndexPanel] else []
    else []
  [StructSection.fileInfo, StructSection.headerPanel]
    ++ row_group_panels ++ page_index_panels ++ [StructSection.footerPanel]

/-- `StatsTab._render_stats` gate (`tui.py` lines 570-580): whether any
column chunk anywhere in the file has `is_stats_set`. -/
def has_any_stats (r : ReaderState) : Bool :=
  (List.range r.num_row_groups).any fun i =>
    (List.range (r.get_row_group_info i).num_columns).any fun j =>
      ((r.get_row_group_info i).column j).is_stats_set

/-- One statistics line of a per-column statistics cell. -/
inductive StatItem
  | numValues (v : Int)
  | minMaxValues (mn mx : Int)
  | nullCount (v : Int)
  | distinctCount (v : Int)
deriving Repr, DecidableEq

/-- The statistics lines printed for one stats-set column chunk (`tui.py`
lines 629-652): the value count always, then min/max, null count and
distinct count each only when its presence flag is set — an absent
statistic produces no line, never a zero. -/
def chunk_stat_items (s : Statistics) : List StatItem :=
  [StatItem.numValues s.num_values]
    ++ (if s.has_min_max then [StatItem.minMaxValues s.statMin s.statMax] else [])
    ++ (if s.has_null_count then [StatItem.nullCount s.null_count] else [])
    ++ (if s.has_distinct_count then [StatItem.distinctCount s.distinct_count] else [])

/-- The statistics cell rendered for one column: either the
"No statistics available" marker or the per-row-group records. -/
inductive ColStatsCell
  | noStatsAvailable
  | records (entries : List (Nat × List StatItem))
deriving Repr, DecidableEq

/-- `StatsTab._render_stats`, one column's cell (`tui.py` lines 611-660):
collect `(row_group_index, statistics lines)` for every row group whose
chunk at this column position has `is_stats_set`; if none has, the cell is
the "No statistics available" marker. -/
def render_column_stats (r : ReaderState) (col_idx : Nat) : ColStatsCell :=
  let entries := (List.range r.num_row_groups).filterMap fun rg_idx =>
    let c := (r.get_row_group_info rg_idx).column col_idx
    if c.is_stats_set then some (rg_idx, chunk_stat_items c.statistics) else none
  if entries.isEmpty then ColStatsCell.noStatsAvailable else ColStatsCell.records entries

/-- The statistics tab's content: a single no-statistics state, or one
cell per column of the file-level schema. -/
inductive StatsView
  | noStatsAnywhere
  | perColumn (cells : List ColStatsCell)
deriving Repr, DecidableEq

/-- `StatsTab._render_stats` (`tui.py` lines 560-697): if no chunk in the
file has statistics, a single no-statistics panel; otherwise one cell per
column position of `metadata.num_columns`. -/
def render_stats (r : ReaderState) : StatsView :=
  if has_any_stats r then
    StatsView.perColumn ((List.range r.metaNumColumns).map (render_column_stats r))
  else
    StatsView.noStatsAnywhere

/-- Outcome of opening a Parquet source. -/
inductive OpenOutcome
  | ok
  | errNotFound
  | errInvalidFormat
deriving Repr, DecidableEq

/-- Modelled from the spec: the local `ParquetReader` of
`datanomy/reader/parquet.py` is absent from the sources (only its tests
and its `cli.py` call site are present).  Spec section 6 gives its open
contract, `open(source) → FileHandle | FileNotFoundError |
InvalidFormatError`: a nonexistent path raises `FileNotFoundError`, a
stream that does not parse as Parquet raises an invalid-format error,
otherwise the open succeeds. -/
def localReaderOpen (fileExists validParquet : Bool) : OpenOutcome :=
  if !fileExists then OpenOutcome.errNotFound
  else if !validParquet then OpenOutcome.errInvalidFormat
  else OpenOutcome.ok

/-- The inputs that determine the CLI's exit code: whether the positional
argument is an `s3://` URI, the two optional credential flags, whether the
local file exists and parses as Parquet, and whether the S3 open
succeeds. -/
structure CliArgs where
  fileIsS3Uri : Bool
  access_key_id : Option String
  secret_access_key : Option String
  fileExists : Bool
  validParquet : Bool
  s3OpenOk : Bool
deriving Repr, DecidableEq

/-- `main` of `cli.py` (lines 14-55): the positional argument is declared
as `click.Path(path_type=str)` with no `exists=True`, so argument parsing
never rejects a path and the exit-2 usage-error path of click is never
taken for a nonexistent file.  Inside the `try` block: S3 access with a
missing credential prints an error and exits 1; a reader exception
(`FileNotFoundError`, invalid format, failed S3 fetch) is caught by the
blanket `except Exception` handler and exits 1; otherwise the app runs and
the process exits 0. -/
def cli_exit_code (a : CliArgs) : Nat :=
  let is_s3 := a.fileIsS3Uri || (a.access_key_id.isSome && a.secret_access_key.isSome)
  if is_s3 then
    if a.access_key_id.isNone || a.secret_access_key.isNone then 1
    else if a.s3OpenOk then 0 else 1
  else
    match localReaderOpen a.fileExists a.validParquet with
    | OpenOutcome.ok => 0
    | OpenOutcome.errNotFound => 1
    | OpenOutcome.errInvalidFormat => 1

/-- The configuration an `S3Store` is constructed with. -/
structure S3StoreConfig where
  bucket : String
  endpoint : String
  accessKeyIdUsed : String
  secretAccessKeyUsed : String
  virtual_hosted_style_request : Bool
  allow_http : Bool
deriving Repr, DecidableEq

/-- `S3ParquetReader.__init__` store construction (`s3_parquet.py` lines
103-132): the constructor receives `file_uri`, `access_key_id`,
`secret_access_key` and `endpoint_url`, but the `S3Store` is built from
literal values only — bucket `"de-chl"`, endpoint
`"http://localhost:9000"`, credentials `"minio"` / `"minio123"`, path
style requests, HTTP allowed.  The three credential parameters never reach
the store. -/
def s3_reader_store (file_uri access_key_id secret_access_key : String)
    (endpoint_url : Option String) : S3StoreConfig :=
  { bucket := "de-chl"
    endpoint := "http://localhost:9000"
    accessKeyIdUsed := "minio"
    secretAccessKeyUsed := "minio123"
    virtual_hosted_style_request := false
    allow_http := true }

/-- Statistics object with every presence flag cleared. -/
def emptyStats : Statistics :=
  { num_values := 0, has_min_max := false, statMin := 0, statMax := 0
    has_null_count := false, null_count := 0
    has_distinct_count := false, distinct_count := 0 }

/-- Column-chunk fixture: codec, compressed size, uncompressed size and
data-page offset, with no page indexes and no statistics. -/
def mkChunk (codec : String) (csize usize offset : Int) : ColumnChunk :=
  { path_in_schema := "col", physical_type := "INT64", compression := codec
    total_compressed_size := csize, total_uncompressed_size := usize
    data_page_offset := offset, has_column_index := false, has_offset_index := false
    is_stats_set := false, statistics := emptyStats }

/-- A single-row-group test file with no page-index region: the footer
(metadata plus 8 trailing bytes) begins right where the last column
chunk's data ends (4 + 100), so 162 = 104 + 50 + 8. -/
def sampleReaderPI : ReaderState :=
  { rowGroups := [⟨[mkChunk "SNAPPY" 100 120 4], 10, 120⟩]
    fileContentSize := 162, serialized_size := 50
    metaNumRows := 10, metaNumColumns := 1 }

/-- A row group whose single chunk reports a compressed size larger than
its uncompressed size — metadata the code accepts unchecked. -/
def rgNonMonotone : RowGroupMeta :=
  ⟨[mkChunk "SNAPPY" 10 5 4], 1, 5⟩

/-- A row group with one well-formed compressed chunk (5 of 10 bytes). -/
def rgCompressedOk : RowGroupMeta :=
  ⟨[mkChunk "SNAPPY" 5 10 4], 1, 10⟩

/-- A row group with zero columns. -/
def rgEmptyCols : RowGroupMeta :=
  ⟨[], 0, 0⟩

/-- A row group whose `total_byte_size` field (7) disagrees with the sum
of its chunks' `total_uncompressed_size` (5). -/
def rgByteSizeMismatch : RowGroupMeta :=
  ⟨[mkChunk "SNAPPY" 4 5 4], 1, 7⟩

/-- A row group whose `total_byte_size` field equals the sum of its
chunks' uncompressed sizes. -/
def rgByteSizeOk : RowGroupMeta :=
  ⟨[mkChunk "SNAPPY" 4 5 4], 1, 5⟩

/-- A compressed chunk reporting zero uncompressed bytes. -/
def chunkZeroUncompressed : ColumnChunk :=
  mkChunk "SNAPPY" 5 0 4

/-- A chunk carrying statistics: value count, min/max and null count set,
distinct count absent. -/
def chunkWithStats : ColumnChunk :=
  { mkChunk "SNAPPY" 5 10 4 with
      is_stats_set := true
      statistics :=
        { num_values := 5, has_min_max := true, statMin := 1, statMax := 9
          has_null_count := true, null_count := 0
          has_distinct_count := false, distinct_count := 0 } }

/-- A two-column test file whose first column carries statistics and whose
second column carries none. -/
def sampleReaderStats : ReaderState :=
  { rowGroups := [⟨[chunkWithStats, mkChunk "SNAPPY" 5 10 20], 5, 20⟩]
    fileContentSize := 200, serialized_size := 50
    metaNumRows := 5, metaNumColumns := 2 }

/-- A reader over a file with no row groups at all. -/
def readerEmptyFile : ReaderState :=
  { rowGroups := [], fileContentSize := 0, serialized_size := 0
    metaNumRows := 0, metaNumColumns := 0 }

/-- CLI invocation on a nonexistent local path with no credential flags. -/
def cliArgsNonexistentLocal : CliArgs :=
  { fileIsS3Uri := false, access_key_id := none, secret_access_key := none
    fileExists := false, validParquet := true, s3OpenOk := true }

/-- CLI invocation on an existing, valid local Parquet file. -/
def cliArgsValidLocal : CliArgs :=
  { fileIsS3Uri := false, access_key_id := none, secret_access_key := none
    fileExists := true, validParquet := true, s3OpenOk := true }

/-- CLI invocation on an existing local file that is not valid Parquet. -/
def cliArgsInvalidLocal : CliArgs :=
  { fileIsS3Uri := false, access_key_id := none, secret_access_key := none
    fileExists := true, validParquet := false, s3OpenOk := true }

/-- CLI invocation on an `s3://` URI with both credential flags absent. -/
def cliArgsS3NoCreds : CliArgs :=
  { fileIsS3Uri := true, access_key_id := none, secret_access_key := none
    fileExists := true, validParquet := true, s3OpenOk := true }

/-! ## Shared helper lemmas -/

/-- Defaulted indexed access over the full index range of a list is the
same as mapping over the list itself. -/
theorem range_map_getD {α β : Type} [Inhabited α] (l : List α) (f : α → β) :
    (List.range l.length).map (fun j => f (l.getD j default)) = l.map f := by
  induction l with
  | nil => simp
  | cons a t ih =>
    simp only [List.length_cons, List.range_succ_eq_map, List.map_cons, List.map_map,
      List.getD_cons_zero, List.map_cons]
    refine congrArg (f a :: ·) ?_
    rw [← ih]
    apply List.map_congr_left
    intro j _
    simp [Function.comp, List.getD_cons_succ]

/-- Defaulted indexed `any` over the full index range of a list is the
same as `any` over the list itself. -/
theorem range_any_getD {α : Type} [Inhabited α] (l : List α) (p : α → Bool) :
    ((List.range l.length).any fun j => p (l.getD j default)) = l.any p := by
  induction l with
  | nil => simp
  | cons a t ih =>
    simp only [List.length_cons, List.range_succ_eq_map, List.any_cons, List.any_map,
      List.getD_cons_zero]
    refine congrArg (p a || ·) ?_
    have hfun : ((fun j => p ((a :: t).getD j default)) ∘ Nat.succ)
        = fun j => p (t.getD j default) :=
      funext fun j => by simp [Function.comp, List.getD_cons_succ]
    rw [hfun, ih]

/-- `total_sizes` written as direct sums over the column-chunk list. -/
theorem total_sizes_eq_map (rg : RowGroupMeta) :
    total_sizes rg =
      { compressed := (rg.columns.map fun c => c.total_compressed_size).sum
        uncompressed := (rg.columns.map fun c => c.total_uncompressed_size).sum } := by
  have h1 := range_map_getD rg.columns fun c => c.total_compressed_size
  have h2 := range_map_getD rg.columns fun c => c.total_uncompressed_size
  simp only [total_sizes, RowGroupMeta.num_columns, RowGroupMeta.column]
  rw [h1, h2]

/-- `has_compression` written as `any` over the column-chunk list. -/
theorem has_compression_eq_any (rg : RowGroupMeta) :
    has_compression rg = rg.columns.any fun c => c.compression != "UNCOMPRESSED" := by
  have h := range_any_getD rg.columns fun c => c.compression != "UNCOMPRESSED"
  simp only [has_compression, RowGroupMeta.num_columns, RowGroupMeta.column]
  exact h

/-- For pointwise-dominated integer-valued maps, the sums agree exactly
when the maps agree on every element. -/
theorem sum_map_eq_iff_of_le {α : Type} (l : List α) (f g : α → Int)
    (h : ∀ a ∈ l, f a ≤ g a) :
    ((l.map g).sum = (l.map f).sum ↔ ∀ a ∈ l, g a = f a) := by
  induction l with
  | nil => simp
  | cons a t ih =>
    have ha : f a ≤ g a := h a (List.mem_cons_self a t)
    have ht : ∀ x ∈ t, f x ≤ g x := fun x hx => h x (List.mem_cons_of_mem a hx)
    have hsum : (t.map f).sum ≤ (t.map g).sum := List.sum_le_sum ht
    simp only [List.map_cons, List.sum_cons, List.mem_cons]
    constructor
    · intro heq
      have hfa : g a = f a := by omega
      have hts : (t.map g).sum = (t.map f).sum := by omega
      intro x hx
      rcases hx with hx | hx
      · rw [hx]; exact hfa
      · exact ((ih ht).mp hts) x hx
    · intro hall
      have hfa : g a = f a := hall a (Or.inl rfl)
      have hts : (t.map g).sum = (t.map f).sum :=
        (ih ht).mpr fun x hx => hall x (Or.inr hx)
      omega

/-! ## Claim theorems -/

/-- C1: `page_index_size` returns 0 when the file has zero row groups;
otherwise, with `last_column` the last column chunk of the last row group,
it returns `(file_size - metadata_size - 8) - (last_column.data_page_offset
+ last_column.total_compressed_size)`; in particular it returns 0 for a
single-row-group file whose footer region begins exactly where the last
column chunk's data ends, i.e. with no page-index structures present. -/
theorem page_index_size_spec (r : ReaderState) :
    (r.num_row_groups = 0 → page_index_size r = 0) ∧
    (0 < r.num_row_groups →
      page_index_size r =
        (r.file_size - r.metadata_size - 8) -
          (((r.get_row_group_info (r.num_row_groups - 1)).column
              ((r.get_row_group_info (r.num_row_groups - 1)).num_columns - 1)).data_page_offset
            + ((r.get_row_group_info (r.num_row_groups - 1)).column
              ((r.get_row_group_info (r.num_row_groups - 1)).num_columns - 1)).total_compressed_size)) ∧
    (r.num_row_groups = 1 →
      r.file_size =
        (((r.get_row_group_info 0).column
            ((r.get_row_group_info 0).num_columns - 1)).data_page_offset
          + ((r.get_row_group_info 0).column
            ((r.get_row_group_info 0).num_columns - 1)).total_compressed_size)
          + r.metadata_size + 8 →
      page_index_size r = 0) := by
  refine ⟨fun h => ?_, fun h => ?_, fun h1 heq => ?_⟩
  · simp [page_index_size, h]
  · rw [page_index_size, if_neg (by omega)]
  · rw [page_index_size, if_neg (by omega)]
    simp only [h1, Nat.sub_self]
    omega

/-- C1 witness: a concrete single-row-group file laid out with the footer
immediately after the last chunk's data has page-index size 0. -/
theorem page_index_size_spec_witness : page_index_size sampleReaderPI = 0 :=
  (page_index_size_spec sampleReaderPI).2.2 rfl (by decide)

/-- C2 counterexample: the claimed invariant quantifies over every row
group, but `total_sizes` only adds up whatever sizes the metadata reports;
a row group whose chunk reports compressed size 10 and uncompressed size 5
refutes `uncompressed ≥ compressed` as stated. -/
theorem rowgroup_size_invariant_cex :
    ¬ ((total_sizes rgNonMonotone).compressed ≤ (total_sizes rgNonMonotone).uncompressed) := by
  decide

/-- C2 (amended): for a row group whose every column chunk reports
`total_compressed_size ≤ total_uncompressed_size`, with equality exactly
when its codec is the `"UNCOMPRESSED"` sentinel, the aggregate satisfies
`total_sizes(rg).uncompressed ≥ total_sizes(rg).compressed`, with equality
iff `has_compression rg` is false. -/
theorem rowgroup_size_invariant (rg : RowGroupMeta)
    (h : ∀ c ∈ rg.columns,
        c.total_compressed_size ≤ c.total_uncompressed_size ∧
        (c.total_uncompressed_size = c.total_compressed_size ↔
          c.compression = "UNCOMPRESSED")) :
    (total_sizes rg).compressed ≤ (total_sizes rg).uncompressed ∧
    ((total_sizes rg).uncompressed = (total_sizes rg).compressed ↔
      has_compression rg = false) := by
  rw [total_sizes_eq_map, has_compression_eq_any]
  have hle : ∀ c ∈ rg.columns, c.total_compressed_size ≤ c.total_uncompressed_size :=
    fun c hc => (h c hc).1
  refine ⟨List.sum_le_sum hle, ?_⟩
  rw [sum_map_eq_iff_of_le rg.columns (fun c => c.total_compressed_size)
    (fun c => c.total_uncompressed_size) hle]
  constructor
  · intro hall
    simp only [List.any_eq_false]
    intro c hc
    simp only [bne_iff_ne, ne_eq, not_not]
    exact (h c hc).2.mp (hall c hc)
  · intro hnone c hc
    simp only [List.any_eq_false] at hnone
    have := hnone c hc
    simp only [bne_iff_ne, ne_eq, not_not] at this
    exact (h c hc).2.mpr this

/-- C2 witness: the amended invariant at a concrete row group with one
well-formed compressed chunk (5 of 10 bytes, codec SNAPPY). -/
theorem rowgroup_size_invariant_witness :
    (total_sizes rgCompressedOk).compressed ≤ (total_sizes rgCompressedOk).uncompressed ∧
    ((total_sizes rgCompressedOk).uncompressed = (total_sizes rgCompressedOk).compressed ↔
      has_compression rgCompressedOk = false) :=
  rowgroup_size_invariant rgCompressedOk (by decide)

/-- C3: `total_sizes` returns exactly the pair of the summed
`total_compressed_size` and summed `total_uncompressed_size` of the row
group's column chunks, and returns `(0, 0)` for a row group with zero
columns. -/
theorem total_sizes_spec (rg : RowGroupMeta) :
    total_sizes rg =
      { compressed := (rg.columns.map fun c => c.total_compressed_size).sum
        uncompressed := (rg.columns.map fun c => c.total_uncompressed_size).sum } ∧
    (rg.columns = [] → total_sizes rg = { compressed := 0, uncompressed := 0 }) := by
  refine ⟨total_sizes_eq_map rg, fun h => ?_⟩
  rw [total_sizes_eq_map rg, h]
  rfl

/-- C3 witness: a zero-column row group totals to `(0, 0)`. -/
theorem total_sizes_spec_witness :
    total_sizes rgEmptyCols = { compressed := 0, uncompressed := 0 } :=
  (total_sizes_spec rgEmptyCols).2 rfl

/-- C4: the compression ratio is always the `(1 - compressed/uncompressed)
* 100` formula, and every ratio call site — the structure tab's row-group
summary and per-column panels, the schema tab's aggregated columns, and
the metadata tab's file totals — divides only behind a guard on a positive
uncompressed size, omitting the ratio otherwise, so no division by zero is
reachable for any input metadata. -/
theorem compression_ratio_guard :
    (∀ rg : RowGroupMeta, rg.total_byte_size ≤ 0 →
        rgSummaryRatio (structure_rg_summary rg) = none) ∧
    (∀ (rg : RowGroupMeta) (rt : Rat),
        rgSummaryRatio (structure_rg_summary rg) = some rt →
        0 < rg.total_byte_size ∧
          rt = compressionPct (total_sizes rg).compressed rg.total_byte_size) ∧
    (∀ c : ColumnChunk, c.total_uncompressed_size ≤ 0 → structure_col_ratio c = none) ∧
    (∀ (c : ColumnChunk) (rt : Rat), structure_col_ratio c = some rt →
        0 < c.total_uncompressed_size ∧
          rt = compressionPct c.total_compressed_size c.total_uncompressed_size) ∧
    (∀ (r : ReaderState) (col_idx : Nat), (column_totals r col_idx).2 ≤ 0 →
        schema_col_ratio r col_idx = none) ∧
    (∀ (r : ReaderState) (col_idx : Nat) (rt : Rat),
        schema_col_ratio r col_idx = some rt →
        0 < (column_totals r col_idx).2 ∧
          rt = compressionPct (column_totals r col_idx).1 (column_totals r col_idx).2) ∧
    (∀ r : ReaderState, (file_total_sizes r).2 ≤ 0 → metadata_ratio r = none) ∧
    (∀ (r : ReaderState) (rt : Rat), metadata_ratio r = some rt →
        0 < (file_total_sizes r).2 ∧
          rt = compressionPct (file_total_sizes r).1 (file_total_sizes r).2) := by
  refine ⟨fun rg hle => ?_, fun rg rt hsome => ?_, fun c hle => ?_, fun c rt hsome => ?_,
    fun r i hle => ?_, fun r i rt hsome => ?_, fun r hle => ?_, fun r rt hsome => ?_⟩
  · simp only [structure_rg_summary]
    split
    · simp only [rgSummaryRatio]
      rw [if_neg (by omega)]
    · simp only [rgSummaryRatio]
  · unfold structure_rg_summary at hsome
    split at hsome
    · simp only [rgSummaryRatio] at hsome
      split at hsome
      · next hpos => exact ⟨hpos, (Option.some.inj hsome).symm⟩
      · exact absurd hsome (by simp)
    · simp only [rgSummaryRatio] at hsome
      exact absurd hsome (by simp)
  · simp only [structure_col_ratio]
    split
    · rw [if_neg (by omega)]
    · rfl
  · simp only [structure_col_ratio] at hsome
    split at hsome
    · split at hsome
      · next hpos => exact ⟨hpos, (Option.some.inj hsome).symm⟩
      · exact absurd hsome (by simp)
    · exact absurd hsome (by simp)
  · simp only [schema_col_ratio]
    split
    · rw [if_neg (by omega)]
    · rfl
  · simp only [schema_col_ratio] at hsome
    split at hsome
    · split at hsome
      · next hpos => exact ⟨hpos, (Option.some.inj hsome).symm⟩
      · exact absurd hsome (by simp)
    · exact absurd hsome (by simp)
  · simp only [metadata_ratio]
    rw [if_neg (by omega)]
  · simp only [metadata_ratio] at hsome
    split at hsome
    · next hpos => exact ⟨hpos, (Option.some.inj hsome).symm⟩
    · exact absurd hsome (by simp)

/-- C4 witness: each guard exercised at concrete inputs — ratios omitted
at zero uncompressed sizes, ratios equal to the formula at positive
ones. -/
theorem compression_ratio_guard_witness :
    rgSummaryRatio (structure_rg_summary rgEmptyCols) = none ∧
    (0 < rgCompressedOk.total_byte_size ∧
      compressionPct 5 10 =
        compressionPct (total_sizes rgCompressedOk).compressed rgCompressedOk.total_byte_size) ∧
    structure_col_ratio chunkZeroUncompressed = none ∧
    (0 < (mkChunk "SNAPPY" 5 10 4).total_uncompressed_size ∧
      compressionPct 5 10 =
        compressionPct (mkChunk "SNAPPY" 5 10 4).total_compressed_size
          (mkChunk "SNAPPY" 5 10 4).total_uncompressed_size) ∧
    schema_col_ratio sampleReaderPI 5 = none ∧
    (0 < (column_totals sampleReaderStats 0).2 ∧
      compressionPct 5 10 =
        compressionPct (column_totals sampleReaderStats 0).1 (column_totals sampleReaderStats 0).2) ∧
    metadata_ratio readerEmptyFile = none ∧
    (0 < (file_total_sizes sampleReaderStats).2 ∧
      compressionPct 10 20 =
        compressionPct (file_total_sizes sampleReaderStats).1 (file_total_sizes sampleReaderStats).2) :=
  ⟨compression_ratio_guard.1 rgEmptyCols (by decide),
   compression_ratio_guard.2.1 rgCompressedOk (compressionPct 5 10) rfl,
   compression_ratio_guard.2.2.1 chunkZeroUncompressed (by decide),
   compression_ratio_guard.2.2.2.1 (mkChunk "SNAPPY" 5 10 4) (compressionPct 5 10) rfl,
   compression_ratio_guard.2.2.2.2.1 sampleReaderPI 5 (by decide),
   compression_ratio_guard.2.2.2.2.2.1 sampleReaderStats 0 (compressionPct 5 10) rfl,
   compression_ratio_guard.2.2.2.2.2.2.1 readerEmptyFile (by decide),
   compression_ratio_guard.2.2.2.2.2.2.2 sampleReaderStats (compressionPct 10 20) rfl⟩

/-- C5: the structure view orders its sections as file info, header, the
row-group panels in row-group order, an optional page-index panel, then
the footer panel; the page-index panel appears iff `page_index_size > 0`
and some column chunk has a column index or an offset index, so a zero or
negative page-index size is never displayed. -/
theorem structure_sections_spec (r : ReaderState) :
    render_structure_sections r =
      [StructSection.fileInfo, StructSection.headerPanel]
        ++ (List.range r.num_row_groups).map StructSection.rowGroupPanel
        ++ (if 0 < page_index_size r ∧
              (any_column_index r = true ∨ any_offset_index r = true)
            then [StructSection.pageIndexPanel] else [])
        ++ [StructSection.footerPanel] ∧
    (StructSection.pageIndexPanel ∈ render_structure_sections r ↔
      0 < page_index_size r ∧
        (any_column_index r = true ∨ any_offset_index r = true)) ∧
    (page_index_size r ≤ 0 →
      StructSection.pageIndexPanel ∉ render_structure_sections r) := by
  have heq : render_structure_sections r =
      [StructSection.fileInfo, StructSection.headerPanel]
        ++ (List.range r.num_row_groups).map StructSection.rowGroupPanel
        ++ (if 0 < page_index_size r ∧
              (any_column_index r = true ∨ any_offset_index r = true)
            then [StructSection.pageIndexPanel] else [])
        ++ [StructSection.footerPanel] := by
    unfold render_structure_sections
    split
    · next hpos =>
      split
      · next hor =>
        rw [if_pos]
        exact ⟨hpos, by simpa [Bool.or_eq_true] using hor⟩
      · next hor =>
        rw [if_neg]
        rintro ⟨-, h⟩
        exact hor (by simpa [Bool.or_eq_true] using h)
    · next hpos =>
      rw [if_neg]
      rintro ⟨h, -⟩
      exact hpos h
  have hmem : StructSection.pageIndexPanel ∈ render_structure_sections r ↔
      0 < page_index_size r ∧
        (any_column_index r = true ∨ any_offset_index r = true) := by
    rw [heq]
    by_cases hcond : 0 < page_index_size r ∧
        (any_column_index r = true ∨ any_offset_index r = true)
    · simp [hcond]
    · simp only [hcond, if_false, iff_false]
      simp [List.mem_append, List.mem_range]
  exact ⟨heq, hmem, fun hle hmemp => absurd (hmem.mp hmemp).1 (by omega)⟩

/-- C5 witness: a file whose page-index size is zero shows no page-index
panel. -/
theorem structure_sections_spec_witness :
    StructSection.pageIndexPanel ∉ render_structure_sections sampleReaderPI :=
  (structure_sections_spec sampleReaderPI).2.2 (by decide)

/-- C6: the statistics view shows the single no-statistics state exactly
when no column chunk anywhere has statistics; otherwise it shows one cell
per schema column, and a column none of whose chunks carries statistics
renders as the "no statistics available" marker, never as zero-filled
records. -/
theorem stats_view_gating (r : ReaderState) :
    (render_stats r = StatsView.noStatsAnywhere ↔ has_any_stats r = false) ∧
    (∀ col_idx : Nat,
        (∀ i, i < r.num_row_groups →
            ((r.get_row_group_info i).column col_idx).is_stats_set = false) →
        render_column_stats r col_idx = ColStatsCell.noStatsAvailable) ∧
    (has_any_stats r = true →
        render_stats r = StatsView.perColumn
          ((List.range r.metaNumColumns).map (render_column_stats r))) := by
  refine ⟨?_, fun col_idx hnone => ?_, fun hsome => ?_⟩
  · unfold render_stats
    by_cases h : has_any_stats r = true
    · simp [h]
    · rw [Bool.not_eq_true] at h
      simp [h]
  · unfold render_column_stats
    have hempty : ((List.range r.num_row_groups).filterMap fun rg_idx =>
        if ((r.get_row_group_info rg_idx).column col_idx).is_stats_set then
          some (rg_idx, chunk_stat_items ((r.get_row_group_info rg_idx).column col_idx).statistics)
        else none) = [] := by
      rw [List.filterMap_eq_nil_iff]
      intro i hi
      rw [List.mem_range] at hi
      simp [hnone i hi]
    rw [hempty]
    rfl
  · simp [render_stats, hsome]

/-- C6 witness: in a file whose first column carries statistics and whose
second column carries none, the view keeps per-column cells and renders
the second column as the no-statistics marker. -/
theorem stats_view_gating_witness :
    render_column_stats sampleReaderStats 1 = ColStatsCell.noStatsAvailable ∧
    render_stats sampleReaderStats = StatsView.perColumn
      ((List.range sampleReaderStats.metaNumColumns).map (render_column_stats sampleReaderStats)) :=
  ⟨(stats_view_gating sampleReaderStats).2.1 1 (by decide),
   (stats_view_gating sampleReaderStats).2.2 (by decide)⟩

/-- C7: byte-count formatting buckets at 1024-byte thresholds into
bytes / KB / MB / GB, shows the scaled value with two decimal places, and
appends the exact grouped-thousands byte count from 1024 bytes upward; in
particular the four concrete values of the spec hold. -/
theorem format_size_spec :
    format_size 500 = "500 bytes" ∧
    format_size 2048 = "2.00 KB (2,048 bytes)" ∧
    format_size (5 * 1024 * 1024) = "5.00 MB (5,242,880 bytes)" ∧
    format_size (3 * 1024 * 1024 * 1024) = "3.00 GB (3,221,225,472 bytes)" ∧
    (∀ n : Int, n < 1024 → format_size n = toString n ++ " bytes") ∧
    (∀ n : Int, 1024 ≤ n → n < 1024 * 1024 →
        format_size n = twoDecimals n 1024 ++ " KB (" ++ groupThousands n ++ " bytes)") ∧
    (∀ n : Int, 1024 * 1024 ≤ n → n < 1024 * 1024 * 1024 →
        format_size n =
          twoDecimals n (1024 * 1024) ++ " MB (" ++ groupThousands n ++ " bytes)") ∧
    (∀ n : Int, 1024 * 1024 * 1024 ≤ n →
        format_size n =
          twoDecimals n (1024 * 1024 * 1024) ++ " GB (" ++ groupThousands n ++ " bytes)") := by
  refine ⟨by decide, by decide, by decide, by decide,
    fun n h => ?_, fun n h1 h2 => ?_, fun n h1 h2 => ?_, fun n h1 => ?_⟩
  · rw [format_size, if_pos h]
  · rw [format_size, if_neg (by omega), if_pos h2]
  · rw [format_size, if_neg (by omega), if_neg (by omega), if_pos h2]
  · rw [format_size, if_neg (by omega), if_neg (by omega), if_neg (by omega)]

/-- C7 witness: the bucket characterizations at 500 and 2048 bytes. -/
theorem format_size_spec_witness :
    format_size 500 = toString (500 : Int) ++ " bytes" ∧
    format_size 2048 = twoDecimals 2048 1024 ++ " KB (" ++ groupThousands 2048 ++ " bytes)" :=
  ⟨format_size_spec.2.2.2.2.1 500 (by decide),
   format_size_spec.2.2.2.2.2.1 2048 (by decide) (by decide)⟩

/-- C8: evaluating the CLI dispatch of `cli.py`.  A nonexistent local path
is NOT rejected with exit code 2 by argument validation — the
`click.Path` argument type is declared without `exists=True`, so the path
reaches the reader, whose `FileNotFoundError` is caught by the blanket
handler and exits 1 (the repository's own test
`test_cli_rejects_nonexistent_file` expects 2).  The exit codes 0 on
success and 1 on caught runtime errors (invalid format, missing S3
credentials) do hold. -/
theorem cli_exit_codes_eval :
    cli_exit_code cliArgsNonexistentLocal = 1 ∧
    cli_exit_code cliArgsNonexistentLocal ≠ 2 ∧
    cli_exit_code cliArgsValidLocal = 0 ∧
    cli_exit_code cliArgsInvalidLocal = 1 ∧
    cli_exit_code cliArgsS3NoCreds = 1 := by
  decide

/-- C9: the `S3ParquetReader` constructor ignores its `access_key_id`,
`secret_access_key` and `endpoint_url` arguments: any two constructions
over the same file URI use the identical, fully fixed store
configuration — bucket `de-chl` at `http://localhost:9000` with the
built-in `minio`/`minio123` credentials. -/
theorem s3_store_ignores_credentials
    (file_uri a₁ s₁ a₂ s₂ : String) (e₁ e₂ : Option String) :
    s3_reader_store file_uri a₁ s₁ e₁ = s3_reader_store file_uri a₂ s₂ e₂ ∧
    s3_reader_store file_uri a₁ s₁ e₁ =
      { bucket := "de-chl", endpoint := "http://localhost:9000"
        accessKeyIdUsed := "minio", secretAccessKeyUsed := "minio123"
        virtual_hosted_style_request := false, allow_http := true } :=
  ⟨rfl, rfl⟩

/-- C10 counterexample: the structure view's uncompressed size comes from
the metadata field `total_byte_size`, which the code never reconciles with
the sum of the chunks' `total_uncompressed_size`; a row group reporting
`total_byte_size = 7` over a single chunk of uncompressed size 5 makes the
two computations differ. -/
theorem structure_uncompressed_refines_cex :
    structure_view_uncompressed rgByteSizeMismatch ≠
      (total_sizes rgByteSizeMismatch).uncompressed := by
  decide

/-- C10 (amended): whenever the row group's `total_byte_size` field equals
the sum of its column chunks' `total_uncompressed_size` — what the Parquet
format prescribes for that field — the uncompressed size shown by the
structure view equals `total_sizes(rg).uncompressed`. -/
theorem structure_uncompressed_refines (rg : RowGroupMeta)
    (h : rg.total_byte_size = (rg.columns.map fun c => c.total_uncompressed_size).sum) :
    structure_view_uncompressed rg = (total_sizes rg).uncompressed := by
  rw [structure_view_uncompressed, h, total_sizes_eq_map]

/-- C10 witness: the two computations agree on a row group whose
`total_byte_size` matches the chunk sum. -/
theorem structure_uncompressed_refines_witness :
    structure_view_uncompressed rgByteSizeOk = (total_sizes rgByteSizeOk).uncompressed :=
  structure_uncompressed_refines rgByteSizeOk (by decide)

end Datanomy


